import Mathlib

/-!
Shallow embedding of `src/app.py` (resident/visit registration app):
the name sanitizer `limpiar_nombre_carpeta`, the database tables
`residentes` / `visitas`, the filesystem of per-person folders, and the
operations `registrar_residente`, `registrar_visita`, `listar_registros`,
`limpiar_visitas_expiradas`, `eliminar_registro`.

Timestamps are modelled as `Nat`.  The `datetime` library is external to
the repository: parsing of the visit expiry string is passed in as a
function `parse : String → Option Nat` (`none` models the `ValueError`
raised by `datetime.fromisoformat` after the `'T' → ' '` replacement),
and each `datetime.now()` call in a handler becomes an explicit `Nat`
argument at the corresponding position.

The filesystem is modelled as the set of existing directories plus the
set of existing `(directory, filename)` pairs; photo payloads are opaque
(only their count matters to the control flow).  `shutil.rmtree` failures
(caught and logged by the handlers) are modelled by a `failSet` of paths
whose removal raises.
-/

namespace Registro

/-- ASCII core of Python's `\s` class (space, tab, newline, carriage
return, vertical tab, form feed). -/
def isSpaceChar (c : Char) : Bool :=
  c = ' ' || c = '\t' || c = '\n' || c = '\r' || c = '\x0b' || c = '\x0c'

/-- ASCII core of Python's `\w` class: letters, digits and underscore.
Note that `\w` matches the underscore. -/
def isWordChar (c : Char) : Bool :=
  c.isAlphanum || c = '_'

/-- Characters matched by the regex class `[-\s]` of the second
substitution in `limpiar_nombre_carpeta`. -/
def isDashSpace (c : Char) : Bool :=
  c = '-' || isSpaceChar c

/-- `re.sub(r'[-\s]+', '_', ·)` on a character list: every maximal run of
hyphen/whitespace characters becomes a single underscore.  The boolean
argument records whether the previous character belonged to such a run. -/
def collapseAux : Bool → List Char → List Char
  | _, [] => []
  | prevRun, c :: cs =>
    if isDashSpace c then
      if prevRun then collapseAux true cs
      else '_' :: collapseAux true cs
    else c :: collapseAux false cs

def collapseRuns (l : List Char) : List Char :=
  collapseAux false l

/-- Python's `str.strip('_')`: drop leading and trailing underscores. -/
def stripUnderscores (l : List Char) : List Char :=
  ((l.dropWhile (fun c => c = '_')).reverse.dropWhile (fun c => c = '_')).reverse

/-- `limpiar_nombre_carpeta` (app.py lines 31-54):
`re.sub(r'[^\w\s-]', '', nombre)`, then `re.sub(r'[-\s]+', '_', ·)`,
then `.strip('_')`. -/
def limpiar_nombre_carpeta (nombre : String) : String :=
  let paso1 := nombre.data.filter (fun c => isWordChar c || isSpaceChar c || c = '-')
  String.mk (stripUnderscores (collapseRuns paso1))

/-- Modelled from the spec's words (for comparison with
`limpiar_nombre_carpeta`): "Strips every character that is not a letter,
digit, whitespace, or hyphen; collapses any run of hyphens/whitespace
into a single underscore; trims leading/trailing underscores."  The
difference with the code is the first step: the spec's filter does not
keep the underscore, while the code's `\w` class does. -/
def sanitize_spec (nombre : String) : String :=
  let paso1 := nombre.data.filter (fun c => c.isAlphanum || isSpaceChar c || c = '-')
  String.mk (stripUnderscores (collapseRuns paso1))

/-- A row of the `residentes` table (app.py lines 74-80). -/
structure Resident where
  id : Nat
  nombre : String
  rut : String
  foto_path : String
  carpeta_path : String
  fecha_registro : Nat
  deriving DecidableEq, Repr

/-- A row of the `visitas` table (app.py lines 83-90). -/
structure Visita where
  id : Nat
  nombre : String
  rut : String
  foto_path : String
  carpeta_path : String
  fecha_registro : Nat
  fecha_expiracion : Nat
  deriving DecidableEq, Repr

/-- The SQLite database `registro.db`: the two tables plus the
AUTOINCREMENT counters. -/
structure DB where
  residentes : List Resident
  visitas : List Visita
  nextResId : Nat
  nextVisId : Nat
  deriving DecidableEq, Repr

/-- The filesystem under the upload root: the set of existing
directories and the set of existing `(directory, filename)` pairs. -/
structure FS where
  carpetas : List String
  archivos : List (String × String)
  deriving DecidableEq, Repr

/-- Handler outcomes, one constructor per distinct response of the
handlers (`.ok` for the 200 responses, the rest for the error JSON
responses with their status codes). -/
inductive Resultado where
  | ok : Resultado
  | faltanDatos : Resultado
  | sinFotos : Resultado
  | faltaFecha : Resultado
  | fechaInvalida : Resultado
  | noEncontrado : Resultado
  | rutDuplicado : Resultado
  | tipoInvalido : Resultado
  deriving DecidableEq, Repr

/-- Python truthiness test `not x` on `data.get(...)`: true for a
missing key (`None`) and for the empty string. -/
def esFalsy : Option String → Bool
  | none => true
  | some s => s.isEmpty

/-- The configured upload root (`app.config['UPLOAD_FOLDER']`). -/
def UPLOAD_FOLDER : String := "fotos"

/-- `os.path.join(UPLOAD_FOLDER, f"{limpiar_nombre_carpeta(nombre)}_{rut}")`
(app.py lines 212-213 and 343-344). -/
def carpetaPara (nombre rut : String) : String :=
  UPLOAD_FOLDER ++ "/" ++ limpiar_nombre_carpeta nombre ++ "_" ++ rut

/-- `f"foto_{n:02d}.jpg"`: two-digit zero padding, growing naturally
past 99. -/
def fotoFilename (n : Nat) : String :=
  "foto_" ++ (if n < 10 then "0" ++ toString n else toString n) ++ ".jpg"

/-- Path of the `n`-th photo file inside a folder. -/
def fotoPathEn (carpeta : String) (n : Nat) : String :=
  carpeta ++ "/" ++ fotoFilename n

/-- `os.makedirs(..., exist_ok=True)`: create the directory if absent. -/
def makedirs (fs : FS) (carpeta : String) : FS :=
  if carpeta ∈ fs.carpetas then fs
  else { fs with carpetas := carpeta :: fs.carpetas }

/-- `open(path, 'w')` + write: the file exists afterwards (content is
opaque in this model). -/
def escribirArchivo (fs : FS) (carpeta nombre : String) : FS :=
  if (carpeta, nombre) ∈ fs.archivos then fs
  else { fs with archivos := (carpeta, nombre) :: fs.archivos }

/-- The photo-writing loop (app.py lines 220-230 / 351-361): writes
`foto_01.jpg` … `foto_k.jpg` into `carpeta`. -/
def escribirFotos (fs : FS) (carpeta : String) : Nat → FS
  | 0 => fs
  | k + 1 => escribirArchivo (escribirFotos fs carpeta k) carpeta (fotoFilename (k + 1))

/-- Writing the `datos.json` sidecar (app.py lines 241-243 / 373-375). -/
def escribirDatos (fs : FS) (carpeta : String) : FS :=
  escribirArchivo fs carpeta "datos.json"

/-- `if os.path.exists(p): shutil.rmtree(p)` wrapped in `try/except`:
paths in `failSet` raise inside `rmtree`, the exception is caught and
logged, and the filesystem is left as it was. -/
def rmtreeAtt (fs : FS) (failSet : List String) (p : String) : FS :=
  if p ∈ fs.carpetas then
    if p ∈ failSet then fs
    else { carpetas := fs.carpetas.filter (fun q => !decide (q = p)),
           archivos := fs.archivos.filter (fun a => !decide (a.1 = p)) }
  else fs

/-- `registrar_residente` (app.py lines 151-268).  `registro_id = some rid`
is the retake path; `now` is the `CURRENT_TIMESTAMP` default of
`fecha_registro` on insert.  Returns the response plus the new database
and filesystem. -/
def registrar_residente (db : DB) (fs : FS) (nombre rut : Option String)
    (fotos : List String) (registro_id : Option Nat) (now : Nat) :
    Resultado × DB × FS :=
  if esFalsy nombre || esFalsy rut then (.faltanDatos, db, fs)
  else if fotos.isEmpty then (.sinFotos, db, fs)
  else
    match registro_id with
    | some rid =>
      match db.residentes.find? (fun x => decide (x.id = rid)) with
      | none => (.noEncontrado, db, fs)
      | some r =>
        let fs1 := escribirDatos (escribirFotos fs r.carpeta_path fotos.length) r.carpeta_path
        let filas := db.residentes.map (fun x =>
          if x.id = rid then { x with foto_path := fotoPathEn r.carpeta_path 1 } else x)
        (.ok, { db with residentes := filas }, fs1)
    | none =>
      let carpeta := carpetaPara (nombre.getD "") (rut.getD "")
      let fs1 := escribirDatos (escribirFotos (makedirs fs carpeta) carpeta fotos.length) carpeta
      if db.residentes.any (fun x => decide (x.rut = rut.getD "")) then
        (.rutDuplicado, db, fs1)
      else
        let nuevo : Resident :=
          { id := db.nextResId, nombre := nombre.getD "", rut := rut.getD "",
            foto_path := fotoPathEn carpeta 1, carpeta_path := carpeta,
            fecha_registro := now }
        (.ok, { db with residentes := db.residentes ++ [nuevo],
                        nextResId := db.nextResId + 1 }, fs1)

/-- `registrar_visita` (app.py lines 270-397).  `parse` models
`datetime.fromisoformat` composed with the `'T' → ' '` replacement
(`none` = `ValueError`); `data.get('fecha_limite', '')` defaults to the
empty string, hence the `isEmpty` test for the missing-expiry error. -/
def registrar_visita (db : DB) (fs : FS) (nombre rut : Option String)
    (fotos : List String) (fecha_limite : Option String) (registro_id : Option Nat)
    (parse : String → Option Nat) (now : Nat) : Resultado × DB × FS :=
  if esFalsy nombre || esFalsy rut then (.faltanDatos, db, fs)
  else if fotos.isEmpty then (.sinFotos, db, fs)
  else if (fecha_limite.getD "").isEmpty then (.faltaFecha, db, fs)
  else
    match parse (fecha_limite.getD "") with
    | none => (.fechaInvalida, db, fs)
    | some fecha_expiracion =>
      match registro_id with
      | some rid =>
        match db.visitas.find? (fun x => decide (x.id = rid)) with
        | none => (.noEncontrado, db, fs)
        | some r =>
          let fs1 := escribirDatos (escribirFotos fs r.carpeta_path fotos.length) r.carpeta_path
          let filas := db.visitas.map (fun x =>
            if x.id = rid then
              { x with foto_path := fotoPathEn r.carpeta_path 1,
                       fecha_expiracion := fecha_expiracion }
            else x)
          (.ok, { db with visitas := filas }, fs1)
      | none =>
        let carpeta := carpetaPara (nombre.getD "") (rut.getD "")
        let fs1 := escribirDatos (escribirFotos (makedirs fs carpeta) carpeta fotos.length) carpeta
        let nueva : Visita :=
          { id := db.nextVisId, nombre := nombre.getD "", rut := rut.getD "",
            foto_path := fotoPathEn carpeta 1, carpeta_path := carpeta,
            fecha_registro := now, fecha_expiracion := fecha_expiracion }
        (.ok, { db with visitas := db.visitas ++ [nueva],
                        nextVisId := db.nextVisId + 1 }, fs1)

/-- The `SELECT … FROM visitas WHERE fecha_expiracion > ?` of
`listar_registros` (app.py line 474): strictly-greater comparison. -/
def visitas_activas (db : DB) (now : Nat) : List Visita :=
  db.visitas.filter (fun v => decide (now < v.fecha_expiracion))

/-- The `SELECT … FROM visitas WHERE fecha_expiracion < ?` of
`limpiar_visitas_expiradas` (app.py line 537): strictly-less comparison. -/
def visitas_expiradas (db : DB) (now : Nat) : List Visita :=
  db.visitas.filter (fun v => decide (v.fecha_expiracion < now))

/-- `listar_registros` (app.py lines 443-508): all residents and the
non-expired visits, each `ORDER BY fecha_registro DESC`.  The single
`datetime.now()` of the handler is the `now` argument. -/
def listar_registros (db : DB) (now : Nat) : List Resident × List Visita :=
  (List.insertionSort (fun a b => b.fecha_registro ≤ a.fecha_registro) db.residentes,
   List.insertionSort (fun a b => b.fecha_registro ≤ a.fecha_registro) (visitas_activas db now))

/-- `limpiar_visitas_expiradas` (app.py lines 510-558).  The handler
calls `datetime.now()` twice: `now1` is the reading used by the SELECT
that gathers the folders (line 537), `now2` the reading used by the bulk
DELETE (line 551).  Returns the `eliminadas` rowcount plus the new
database and filesystem. -/
def limpiar_visitas_expiradas (db : DB) (fs : FS) (failSet : List String)
    (now1 now2 : Nat) : Nat × DB × FS :=
  let carpetas_expiradas := (visitas_expiradas db now1).map (fun v => v.carpeta_path)
  let fs1 := carpetas_expiradas.foldl (fun acc p => rmtreeAtt acc failSet p) fs
  let restantes := db.visitas.filter (fun v => !decide (v.fecha_expiracion < now2))
  let eliminadas := db.visitas.length - restantes.length
  (eliminadas, { db with visitas := restantes }, fs1)

/-- `eliminar_registro` (app.py lines 560-621).  The `carpeta_path`
truthiness test of line 603 is the `isEmpty` guard; `rmtreeAtt` models
the guarded, logged `shutil.rmtree`. -/
def eliminar_registro (db : DB) (fs : FS) (failSet : List String)
    (tipo : String) (rid : Nat) : Resultado × DB × FS :=
  if tipo = "residente" then
    match db.residentes.find? (fun x => decide (x.id = rid)) with
    | none => (.noEncontrado, db, fs)
    | some r =>
      let fs1 := if r.carpeta_path.isEmpty then fs else rmtreeAtt fs failSet r.carpeta_path
      (.ok, { db with residentes := db.residentes.filter (fun x => !decide (x.id = rid)) }, fs1)
  else if tipo = "visita" then
    match db.visitas.find? (fun x => decide (x.id = rid)) with
    | none => (.noEncontrado, db, fs)
    | some r =>
      let fs1 := if r.carpeta_path.isEmpty then fs else rmtreeAtt fs failSet r.carpeta_path
      (.ok, { db with visitas := db.visitas.filter (fun x => !decide (x.id = rid)) }, fs1)
  else (.tipoInvalido, db, fs)

/-! Example rows and states, used by the concrete witnesses below. -/

def residenteEj : Resident :=
  { id := 1, nombre := "Ana", rut := "11", foto_path := "fotos/Ana_11/foto_01.jpg",
    carpeta_path := "fotos/Ana_11", fecha_registro := 0 }

def visitaEj : Visita :=
  { id := 1, nombre := "Eva", rut := "22", foto_path := "fotos/Eva_22/foto_01.jpg",
    carpeta_path := "fotos/Eva_22", fecha_registro := 0, fecha_expiracion := 5 }

def dbEj : DB :=
  { residentes := [residenteEj], visitas := [visitaEj], nextResId := 2, nextVisId := 2 }

def fsEj : FS :=
  { carpetas := ["fotos/Ana_11", "fotos/Eva_22"],
    archivos := [("fotos/Ana_11", "foto_01.jpg"), ("fotos/Eva_22", "foto_01.jpg")] }

/-- A concrete stand-in for the expiry parser in the witnesses. -/
def parseEj : String → Option Nat :=
  fun s => if s = "2025-01-01 00:00" then some 10 else none

/-- The empty database, as `init_db` leaves a fresh `registro.db`. -/
def dbVac : DB := { residentes := [], visitas := [], nextResId := 1, nextVisId := 1 }

/-- The empty upload root. -/
def fsVac : FS := { carpetas := [], archivos := [] }

/-! Helper lemmas about the sanitizer. -/

theorem spaceChar_cases {c : Char} (h : isSpaceChar c = true) :
    c = ' ' ∨ c = '\t' ∨ c = '\n' ∨ c = '\r' ∨ c = '\x0b' ∨ c = '\x0c' := by
  simp only [isSpaceChar, Bool.or_eq_true, decide_eq_true_eq] at h
  tauto

theorem wordChar_not_dashSpace (c : Char) (h : isWordChar c = true) :
    isDashSpace c = false := by
  cases hd : isDashSpace c with
  | false => rfl
  | true =>
    exfalso
    simp only [isDashSpace, Bool.or_eq_true, decide_eq_true_eq] at hd
    rcases hd with h1 | h1
    · subst h1; exact absurd h (by decide)
    · rcases spaceChar_cases h1 with h1 | h1 | h1 | h1 | h1 | h1 <;> subst h1 <;>
        exact absurd h (by decide)

theorem underscore_wordChar : isWordChar '_' = true := by decide

theorem collapseAux_chars (l : List Char) :
    ∀ b, (∀ c ∈ l, (isWordChar c || isDashSpace c) = true) →
      ∀ c ∈ collapseAux b l, isWordChar c = true := by
  induction l with
  | nil => intro b _ c hc; simp [collapseAux] at hc
  | cons a as ih =>
    intro b h c hc
    by_cases ha : isDashSpace a = true
    · cases b with
      | true =>
        simp only [collapseAux, ha, if_true] at hc
        exact ih true (fun x hx => h x (List.mem_cons_of_mem a hx)) c hc
      | false =>
        simp only [collapseAux, ha, if_true] at hc
        rcases List.mem_cons.mp hc with rfl | hc
        · exact underscore_wordChar
        · exact ih true (fun x hx => h x (List.mem_cons_of_mem a hx)) c hc
    · simp only [collapseAux, ha, if_false] at hc
      rcases List.mem_cons.mp hc with rfl | hc
      · have := h c (List.mem_cons_self c as)
        rcases Bool.or_eq_true_iff.mp this with hw | hdd
        · exact hw
        · exact absurd hdd ha
      · exact ih false (fun x hx => h x (List.mem_cons_of_mem a hx)) c hc

theorem collapseAux_eq_self (l : List Char) :
    ∀ b, (∀ c ∈ l, isDashSpace c = false) → collapseAux b l = l := by
  induction l with
  | nil => intro b _; rfl
  | cons a as ih =>
    intro b h
    have ha : isDashSpace a = false := h a (List.mem_cons_self a as)
    simp only [collapseAux, ha, Bool.false_eq_true, if_false]
    rw [ih false (fun x hx => h x (List.mem_cons_of_mem a hx))]

theorem mem_stripUnderscores {l : List Char} {c : Char}
    (h : c ∈ stripUnderscores l) : c ∈ l := by
  unfold stripUnderscores at h
  rw [List.mem_reverse] at h
  have h1 := List.Sublist.mem h (List.dropWhile_sublist _)
  rw [List.mem_reverse] at h1
  exact List.Sublist.mem h1 (List.dropWhile_sublist _)

theorem mem_limpiar_wordChar (s : String) (c : Char)
    (h : c ∈ (limpiar_nombre_carpeta s).data) : isWordChar c = true := by
  have h1 : c ∈ collapseRuns (s.data.filter
      (fun c => isWordChar c || isSpaceChar c || c = '-')) := mem_stripUnderscores h
  refine collapseAux_chars _ false (fun x hx => ?_) c h1
  have hp := (List.mem_filter.mp hx).2
  rcases Bool.or_eq_true_iff.mp hp with hp1 | hp1
  · rcases Bool.or_eq_true_iff.mp hp1 with hw | hsp
    · simp [hw]
    · simp [isDashSpace, hsp]
  · simp [isDashSpace, hp1]

theorem dropWhile_head_not (p : Char → Bool) (l : List Char) :
    ∀ c, (l.dropWhile p).head? = some c → p c = false := by
  induction l with
  | nil => intro c hc; simp [List.dropWhile] at hc
  | cons a as ih =>
    intro c hc
    by_cases ha : p a = true
    · rw [List.dropWhile_cons_of_pos ha] at hc
      exact ih c hc
    · rw [List.dropWhile_cons_of_neg ha] at hc
      simp only [List.head?_cons, Option.some.injEq] at hc
      subst hc
      exact Bool.eq_false_iff.mpr ha

theorem dropWhile_eq_self_of_head (p : Char → Bool) (l : List Char)
    (h : ∀ c, l.head? = some c → p c = false) : l.dropWhile p = l := by
  cases l with
  | nil => rfl
  | cons a as =>
    have ha : p a = false := h a rfl
    rw [List.dropWhile_cons_of_neg (by simp [ha])]

theorem getLast?_dropWhile (p : Char → Bool) (l : List Char) :
    l.dropWhile p = [] ∨ (l.dropWhile p).getLast? = l.getLast? := by
  induction l with
  | nil => exact Or.inl rfl
  | cons a as ih =>
    by_cases ha : p a = true
    · rw [List.dropWhile_cons_of_pos ha]
      cases as with
      | nil => exact Or.inl rfl
      | cons b bs =>
        rcases ih with h1 | h1
        · exact Or.inl h1
        · exact Or.inr (by rw [h1, List.getLast?_cons_cons])
    · rw [List.dropWhile_cons_of_neg ha]
      exact Or.inr rfl

theorem stripUnderscores_head (l : List Char) :
    ∀ c, (stripUnderscores l).head? = some c → (c = '_') = False := by
  intro c hc
  unfold stripUnderscores at hc
  rw [List.head?_reverse] at hc
  rcases getLast?_dropWhile (fun c => decide (c = '_')) (l.dropWhile (fun c => decide (c = '_'))).reverse with h1 | h1
  · rw [h1] at hc; simp at hc
  · rw [h1, List.getLast?_reverse] at hc
    have := dropWhile_head_not (fun c => decide (c = '_')) l c hc
    simpa using this

theorem stripUnderscores_getLast (l : List Char) :
    ∀ c, (stripUnderscores l).getLast? = some c → (c = '_') = False := by
  intro c hc
  unfold stripUnderscores at hc
  rw [List.getLast?_reverse] at hc
  have := dropWhile_head_not (fun c => decide (c = '_')) _ c hc
  simpa using this

theorem stripUnderscores_of_stripped (l : List Char)
    (hh : ∀ c, l.head? = some c → (c = '_') = False)
    (hl : ∀ c, l.getLast? = some c → (c = '_') = False) :
    stripUnderscores l = l := by
  unfold stripUnderscores
  rw [dropWhile_eq_self_of_head _ l (fun c hc => by simp [hh c hc]),
    dropWhile_eq_self_of_head _ l.reverse
      (fun c hc => by rw [List.head?_reverse] at hc; simp [hl c hc]),
    List.reverse_reverse]

theorem stripUnderscores_idem (l : List Char) :
    stripUnderscores (stripUnderscores l) = stripUnderscores l :=
  stripUnderscores_of_stripped _ (stripUnderscores_head l) (stripUnderscores_getLast l)

/-! Helper lemmas about lists, the filesystem model and the sweep. -/

theorem length_filter_split {α : Type} (p : α → Bool) (l : List α) :
    (l.filter p).length + (l.filter (fun a => !p a)).length = l.length := by
  induction l with
  | nil => rfl
  | cons a as ih =>
    cases h : p a with
    | true => simp [List.filter_cons, h]; omega
    | false => simp [List.filter_cons, h]; omega

theorem makedirs_mem_self (fs : FS) (c : String) : c ∈ (makedirs fs c).carpetas := by
  unfold makedirs
  split_ifs with h
  · exact h
  · exact List.mem_cons_self _ _

theorem makedirs_archivos (fs : FS) (c : String) : (makedirs fs c).archivos = fs.archivos := by
  unfold makedirs
  split_ifs <;> rfl

theorem escribirArchivo_carpetas (fs : FS) (c n : String) :
    (escribirArchivo fs c n).carpetas = fs.carpetas := by
  unfold escribirArchivo
  split_ifs <;> rfl

theorem escribirFotos_carpetas (fs : FS) (c : String) (k : Nat) :
    (escribirFotos fs c k).carpetas = fs.carpetas := by
  induction k with
  | zero => rfl
  | succ k ih => rw [escribirFotos, escribirArchivo_carpetas, ih]

theorem escribirDatos_carpetas (fs : FS) (c : String) :
    (escribirDatos fs c).carpetas = fs.carpetas :=
  escribirArchivo_carpetas fs c "datos.json"

theorem escribirArchivo_mem_self (fs : FS) (c n : String) :
    (c, n) ∈ (escribirArchivo fs c n).archivos := by
  unfold escribirArchivo
  split_ifs with h
  · exact h
  · exact List.mem_cons_self _ _

theorem escribirArchivo_mem_mono {fs : FS} {a : String × String} (c n : String)
    (h : a ∈ fs.archivos) : a ∈ (escribirArchivo fs c n).archivos := by
  unfold escribirArchivo
  split_ifs with h1
  · exact h
  · exact List.mem_cons_of_mem _ h

theorem escribirFotos_mem (fs : FS) (c : String) :
    ∀ k n, 1 ≤ n → n ≤ k → (c, fotoFilename n) ∈ (escribirFotos fs c k).archivos := by
  intro k
  induction k with
  | zero => intro n h1 h2; omega
  | succ k ih =>
    intro n h1 h2
    by_cases hn : n = k + 1
    · subst hn
      exact escribirArchivo_mem_self _ _ _
    · exact escribirArchivo_mem_mono _ _ (ih n h1 (by omega))

theorem escribirFotos_mem_mono (fs : FS) (c : String) (k : Nat) {a : String × String}
    (h : a ∈ fs.archivos) : a ∈ (escribirFotos fs c k).archivos := by
  induction k with
  | zero => exact h
  | succ k ih => exact escribirArchivo_mem_mono _ _ ih

theorem rmtreeAtt_carpetas_subset {fs : FS} {failSet : List String} {p q : String}
    (h : q ∈ (rmtreeAtt fs failSet p).carpetas) : q ∈ fs.carpetas := by
  unfold rmtreeAtt at h
  split_ifs at h
  · exact h
  · exact (List.mem_filter.mp h).1
  · exact h

theorem rmtreeAtt_not_mem_self (fs : FS) (failSet : List String) (p : String)
    (hp : p ∉ failSet) : p ∉ (rmtreeAtt fs failSet p).carpetas := by
  unfold rmtreeAtt
  by_cases h1 : p ∈ fs.carpetas
  · rw [if_pos h1, if_neg hp]
    intro hmem
    have := (List.mem_filter.mp hmem).2
    simp at this
  · rw [if_neg h1]
    exact h1

theorem foldl_rmtree_subset (failSet : List String) (ps : List String) :
    ∀ (fs : FS) {q : String}, q ∈ (ps.foldl (fun acc p => rmtreeAtt acc failSet p) fs).carpetas →
      q ∈ fs.carpetas := by
  induction ps with
  | nil => intro fs q h; exact h
  | cons a as ih =>
    intro fs q h
    rw [List.foldl_cons] at h
    exact rmtreeAtt_carpetas_subset (ih _ h)

theorem foldl_rmtree_not_mem (failSet : List String) (ps : List String) :
    ∀ (fs : FS) (p : String), p ∈ ps → p ∉ failSet →
      p ∉ (ps.foldl (fun acc q => rmtreeAtt acc failSet q) fs).carpetas := by
  induction ps with
  | nil => intro fs p hp; simp at hp
  | cons a as ih =>
    intro fs p hp hf
    rw [List.foldl_cons]
    rcases List.mem_cons.mp hp with rfl | hp2
    · intro hmem
      exact rmtreeAtt_not_mem_self fs failSet p hf (foldl_rmtree_subset failSet as _ hmem)
    · exact ih _ p hp2 hf

theorem mem_listar_visitas (db : DB) (now : Nat) (v : Visita) :
    v ∈ (listar_registros db now).2 ↔ v ∈ db.visitas ∧ now < v.fecha_expiracion := by
  unfold listar_registros
  rw [(List.perm_insertionSort _ _).mem_iff]
  unfold visitas_activas
  rw [List.mem_filter]
  simp

theorem mem_visitas_expiradas (db : DB) (now : Nat) (v : Visita) :
    v ∈ visitas_expiradas db now ↔ v ∈ db.visitas ∧ v.fecha_expiracion < now := by
  unfold visitas_expiradas
  rw [List.mem_filter]
  simp

/-! The claims. -/

/-- C10: the sanitizer is idempotent: for every input string `s`,
`limpiar_nombre_carpeta (limpiar_nombre_carpeta s) = limpiar_nombre_carpeta s`,
because its output contains no character it would strip, no whitespace or
hyphen run to collapse, and no leading or trailing underscore to trim. -/
theorem limpiar_nombre_carpeta_idempotente (s : String) :
    limpiar_nombre_carpeta (limpiar_nombre_carpeta s) = limpiar_nombre_carpeta s := by
  have hword : ∀ c ∈ (limpiar_nombre_carpeta s).data, isWordChar c = true :=
    mem_limpiar_wordChar s
  have hfilter : (limpiar_nombre_carpeta s).data.filter
      (fun c => isWordChar c || isSpaceChar c || c = '-') = (limpiar_nombre_carpeta s).data :=
    List.filter_eq_self.mpr (fun c hc => by simp [hword c hc])
  have hcollapse : collapseRuns ((limpiar_nombre_carpeta s).data) =
      (limpiar_nombre_carpeta s).data :=
    collapseAux_eq_self _ false (fun c hc => wordChar_not_dashSpace c (hword c hc))
  have hstrip : stripUnderscores ((limpiar_nombre_carpeta s).data) =
      (limpiar_nombre_carpeta s).data := by
    have hd : (limpiar_nombre_carpeta s).data = stripUnderscores (collapseRuns (s.data.filter
        (fun c => isWordChar c || isSpaceChar c || c = '-'))) := rfl
    rw [hd, stripUnderscores_idem]
  show String.mk (stripUnderscores (collapseRuns ((limpiar_nombre_carpeta s).data.filter
      (fun c => isWordChar c || isSpaceChar c || c = '-')))) = limpiar_nombre_carpeta s
  rw [hfilter, hcollapse, hstrip]

/-- C4 counterexample: the claim says the sanitizer strips every character
that is not a letter, digit, whitespace, or hyphen.  The code's first
substitution uses the class `\w`, which also keeps the underscore: on the
input `"a_b"` the code keeps the underscore and returns `"a_b"`, while
the pipeline described by the spec (modelled by `sanitize_spec`) strips
it and returns `"ab"`. -/
theorem limpiar_conserva_guion_bajo :
    limpiar_nombre_carpeta "a_b" = "a_b" ∧ sanitize_spec "a_b" = "ab" ∧
      ("a_b" : String) ≠ "ab" := by
  refine ⟨rfl, rfl, by decide⟩

/-- C4 (amended): the sanitizer strips every character that is not a word
character (letter, digit, or underscore), whitespace, or hyphen, then
collapses any run of hyphens/whitespace into a single underscore, then
trims leading/trailing underscores; it is pure and total;
`limpiar_nombre_carpeta "  --a--  " = "a"` and
`limpiar_nombre_carpeta "" = ""`, and the output contains no character
outside word characters (letters/digits/underscore). -/
theorem limpiar_nombre_carpeta_amended :
    (∀ (s : String), ∀ c ∈ (limpiar_nombre_carpeta s).data, isWordChar c = true) ∧
    limpiar_nombre_carpeta "  --a--  " = "a" ∧ limpiar_nombre_carpeta "" = "" :=
  ⟨fun s c hc => mem_limpiar_wordChar s c hc, rfl, rfl⟩

/-- Witness for the amended C4 at a concrete input: the character of
`limpiar_nombre_carpeta "  --a--  " = "a"` is a word character. -/
theorem limpiar_nombre_carpeta_amended_witness : isWordChar 'a' = true :=
  limpiar_nombre_carpeta_amended.1 "  --a--  " 'a' (by decide)

/-- C1: for every sweep invocation (with the claim's single `now` at both
clock readings): the expired visits are fetched with `expires_at < now`;
folder deletion is attempted for each of them independently (a failure —
membership in `failSet` — is logged and neither stops the sweep nor
prevents any row from being purged: the resulting rows do not depend on
`failSet`, and every expired folder outside `failSet` is gone); the bulk
delete removes exactly the rows with `expires_at < now`, leaves the
residents untouched, and the returned count equals the number of rows
removed. -/
theorem limpiar_visitas_expiradas_correcto (db : DB) (fs : FS) (failSet : List String)
    (now : Nat) :
    (limpiar_visitas_expiradas db fs failSet now now).1 = (visitas_expiradas db now).length ∧
    (limpiar_visitas_expiradas db fs failSet now now).2.1.visitas =
      db.visitas.filter (fun v => !decide (v.fecha_expiracion < now)) ∧
    (limpiar_visitas_expiradas db fs failSet now now).2.1.residentes = db.residentes ∧
    (∀ v ∈ db.visitas, v.fecha_expiracion < now → v.carpeta_path ∉ failSet →
      v.carpeta_path ∉ (limpiar_visitas_expiradas db fs failSet now now).2.2.carpetas) := by
  refine ⟨?_, rfl, rfl, ?_⟩
  · show db.visitas.length -
        (db.visitas.filter (fun v => !decide (v.fecha_expiracion < now))).length = _
    have h1 := length_filter_split (fun v : Visita => decide (v.fecha_expiracion < now)) db.visitas
    have h2 : (visitas_expiradas db now).length =
        (db.visitas.filter (fun v : Visita => decide (v.fecha_expiracion < now))).length := rfl
    rw [h2]
    omega
  · intro v hv hexp hfail
    show v.carpeta_path ∉
      (((visitas_expiradas db now).map (fun v => v.carpeta_path)).foldl
        (fun acc p => rmtreeAtt acc failSet p) fs).carpetas
    refine foldl_rmtree_not_mem failSet _ fs v.carpeta_path ?_ hfail
    exact List.mem_map_of_mem _ ((mem_visitas_expiradas db now v).mpr ⟨hv, hexp⟩)

/-- Witness for C1 at a concrete sweep: `visitaEj` (expiry 5) is removed
by a sweep at time 6 and its folder is gone. -/
theorem limpiar_visitas_expiradas_correcto_witness :
    (limpiar_visitas_expiradas dbEj fsEj [] 6 6).1 = (visitas_expiradas dbEj 6).length ∧
    visitaEj.carpeta_path ∉ (limpiar_visitas_expiradas dbEj fsEj [] 6 6).2.2.carpetas :=
  ⟨(limpiar_visitas_expiradas_correcto dbEj fsEj [] 6).1,
   (limpiar_visitas_expiradas_correcto dbEj fsEj [] 6).2.2.2 visitaEj (by decide) (by decide)
     (by decide)⟩

/-- C2 counterexample: the sweep does not use a single captured "now"; it
calls `datetime.now()` once for the folder-gathering SELECT and again for
the bulk DELETE.  With readings 5 then 6 on a visit expiring at 5, the
set of folders whose deletion is attempted is empty, yet one row is
deleted and its folder survives — so the attempted-folder set differs
from the deleted-row set, refuting the claim at this concrete input. -/
theorem sweep_dos_lecturas_reloj :
    (visitas_expiradas dbEj 5).map (fun v => v.carpeta_path) = [] ∧
    (limpiar_visitas_expiradas dbEj fsEj [] 5 6).1 = 1 ∧
    (limpiar_visitas_expiradas dbEj fsEj [] 5 6).2.1.visitas = [] ∧
    visitaEj.carpeta_path ∈ (limpiar_visitas_expiradas dbEj fsEj [] 5 6).2.2.carpetas := by
  refine ⟨rfl, rfl, rfl, by decide⟩

/-- C2 (amended): the listing performs all its expiration comparisons
against its single `now` argument; the sweep re-reads the clock between
the folder-gathering SELECT and the bulk DELETE, so, provided the second
reading is not earlier than the first, every visit whose folder deletion
was attempted also has its row deleted (the attempted set is contained in
the deleted set), while a visit expiring between the two readings can be
deleted without a folder-deletion attempt. -/
theorem sweep_lecturas_monotonas :
    (∀ (db : DB) (now : Nat) (v : Visita),
      v ∈ (listar_registros db now).2 ↔ v ∈ db.visitas ∧ now < v.fecha_expiracion) ∧
    (∀ (db : DB) (fs : FS) (failSet : List String) (now1 now2 : Nat), now1 ≤ now2 →
      ∀ v ∈ visitas_expiradas db now1,
        v ∉ (limpiar_visitas_expiradas db fs failSet now1 now2).2.1.visitas) := by
  refine ⟨mem_listar_visitas, ?_⟩
  intro db fs failSet now1 now2 hle v hv hmem
  have h1 := (mem_visitas_expiradas db now1 v).mp hv
  have h2 := (List.mem_filter.mp hmem).2
  simp only [Bool.not_eq_true', decide_eq_false_iff_not] at h2
  omega

/-- Witness for the amended C2 at concrete inputs. -/
theorem sweep_lecturas_monotonas_witness :
    (visitaEj ∈ (listar_registros dbEj 3).2 ↔
      visitaEj ∈ dbEj.visitas ∧ 3 < visitaEj.fecha_expiracion) ∧
    visitaEj ∉ (limpiar_visitas_expiradas dbEj fsEj [] 6 7).2.1.visitas :=
  ⟨sweep_lecturas_monotonas.1 dbEj 3 visitaEj,
   sweep_lecturas_monotonas.2 dbEj fsEj [] 6 7 (by decide) visitaEj (by decide)⟩

/-- C3: a visit with `expires_at = now` is in neither the active listing
(which requires `expires_at > now`, strict) nor the expired set (which
requires `expires_at < now`, strict); membership in each is exactly the
corresponding strict comparison, so listing and sweep agree on the
boundary. -/
theorem expiracion_frontera_estricta (db : DB) (now : Nat) (v : Visita)
    (hv : v ∈ db.visitas) :
    (v.fecha_expiracion = now →
      v ∉ (listar_registros db now).2 ∧ v ∉ visitas_expiradas db now) ∧
    (v ∈ (listar_registros db now).2 ↔ now < v.fecha_expiracion) ∧
    (v ∈ visitas_expiradas db now ↔ v.fecha_expiracion < now) := by
  refine ⟨?_, ?_, ?_⟩
  · intro heq
    constructor
    · intro hmem
      have := ((mem_listar_visitas db now v).mp hmem).2
      omega
    · intro hmem
      have := ((mem_visitas_expiradas db now v).mp hmem).2
      omega
  · rw [mem_listar_visitas]
    exact ⟨fun h => h.2, fun h => ⟨hv, h⟩⟩
  · rw [mem_visitas_expiradas]
    exact ⟨fun h => h.2, fun h => ⟨hv, h⟩⟩

/-- Witness for C3: `visitaEj` (expiry 5) at `now = 5` is in neither
list. -/
theorem expiracion_frontera_estricta_witness :
    visitaEj ∉ (listar_registros dbEj 5).2 ∧ visitaEj ∉ visitas_expiradas dbEj 5 :=
  (expiracion_frontera_estricta dbEj 5 visitaEj (by decide)).1 rfl

/-- C6: for every registration or retake request in which the name or the
national id is falsy, or the photo list is empty, or (for visits) the
expiry string is empty or unparsable, the handler returns the
corresponding classified error (`faltanDatos`, `sinFotos`, `faltaFecha`,
`fechaInvalida`) and mutates neither the database nor the filesystem:
validation happens before any side effect. -/
theorem validacion_sin_efectos (db : DB) (fs : FS) (nombre rut : Option String)
    (fotos : List String) (fecha_limite : Option String) (registro_id : Option Nat)
    (parse : String → Option Nat) (now : Nat) :
    ((esFalsy nombre || esFalsy rut) = true →
      registrar_residente db fs nombre rut fotos registro_id now = (.faltanDatos, db, fs)) ∧
    (esFalsy nombre = false → esFalsy rut = false → fotos = [] →
      registrar_residente db fs nombre rut fotos registro_id now = (.sinFotos, db, fs)) ∧
    ((esFalsy nombre || esFalsy rut) = true →
      registrar_visita db fs nombre rut fotos fecha_limite registro_id parse now =
        (.faltanDatos, db, fs)) ∧
    (esFalsy nombre = false → esFalsy rut = false → fotos = [] →
      registrar_visita db fs nombre rut fotos fecha_limite registro_id parse now =
        (.sinFotos, db, fs)) ∧
    (esFalsy nombre = false → esFalsy rut = false → fotos ≠ [] →
      (fecha_limite.getD "").isEmpty = true →
      registrar_visita db fs nombre rut fotos fecha_limite registro_id parse now =
        (.faltaFecha, db, fs)) ∧
    (esFalsy nombre = false → esFalsy rut = false → fotos ≠ [] →
      (fecha_limite.getD "").isEmpty = false → parse (fecha_limite.getD "") = none →
      registrar_visita db fs nombre rut fotos fecha_limite registro_id parse now =
        (.fechaInvalida, db, fs)) := by
  refine ⟨?_, ?_, ?_, ?_, ?_, ?_⟩
  · intro h; simp [registrar_residente, h]
  · intro h1 h2 h3; subst h3; simp [registrar_residente, h1, h2]
  · intro h; simp [registrar_visita, h]
  · intro h1 h2 h3; subst h3; simp [registrar_visita, h1, h2]
  · intro h1 h2 h3 h4
    have h3b : fotos.isEmpty = false := by simp [List.isEmpty_iff, h3]
    simp [registrar_visita, h1, h2, h3b, h4]
  · intro h1 h2 h3 h4 h5
    have h3b : fotos.isEmpty = false := by simp [List.isEmpty_iff, h3]
    simp [registrar_visita, h1, h2, h3b, h4, h5]

/-- Witness for C6: each validation error at a concrete request, with the
state unchanged. -/
theorem validacion_sin_efectos_witness :
    registrar_residente dbEj fsEj none (some "9") ["p"] none 0 = (.faltanDatos, dbEj, fsEj) ∧
    registrar_residente dbEj fsEj (some "Noa") (some "9") [] none 0 = (.sinFotos, dbEj, fsEj) ∧
    registrar_visita dbEj fsEj none (some "9") ["p"] (some "zz") none parseEj 0 =
      (.faltanDatos, dbEj, fsEj) ∧
    registrar_visita dbEj fsEj (some "Noa") (some "9") [] (some "zz") none parseEj 0 =
      (.sinFotos, dbEj, fsEj) ∧
    registrar_visita dbEj fsEj (some "Noa") (some "9") ["p"] none none parseEj 0 =
      (.faltaFecha, dbEj, fsEj) ∧
    registrar_visita dbEj fsEj (some "Noa") (some "9") ["p"] (some "zz") none parseEj 0 =
      (.fechaInvalida, dbEj, fsEj) :=
  ⟨(validacion_sin_efectos dbEj fsEj none (some "9") ["p"] (some "zz") none parseEj 0).1
      (by decide),
   (validacion_sin_efectos dbEj fsEj (some "Noa") (some "9") [] (some "zz") none parseEj 0).2.1
      (by decide) (by decide) rfl,
   (validacion_sin_efectos dbEj fsEj none (some "9") ["p"] (some "zz") none parseEj 0).2.2.1
      (by decide),
   (validacion_sin_efectos dbEj fsEj (some "Noa") (some "9") [] (some "zz") none parseEj 0).2.2.2.1
      (by decide) (by decide) rfl,
   (validacion_sin_efectos dbEj fsEj (some "Noa") (some "9") ["p"] none none parseEj 0).2.2.2.2.1
      (by decide) (by decide) (by decide) rfl,
   (validacion_sin_efectos dbEj fsEj (some "Noa") (some "9") ["p"] (some "zz") none parseEj
      0).2.2.2.2.2 (by decide) (by decide) (by decide) rfl rfl⟩

/-- C5: when a resident with the given national id already exists (one
row), registering a second resident with the same id fails with the
duplicate-identity error, the residents table still contains exactly one
row for that id (the database is unchanged), and the folder, the photo
files and the sidecar already written for the failed registration remain
on the filesystem — they are not rolled back. -/
theorem registrar_residente_rut_duplicado (db : DB) (fs : FS) (nombre rutv : String)
    (fotos : List String) (now : Nat)
    (hn : nombre ≠ "") (hr : rutv ≠ "") (hf : fotos ≠ [])
    (hdup : (db.residentes.filter (fun x => decide (x.rut = rutv))).length = 1) :
    registrar_residente db fs (some nombre) (some rutv) fotos none now =
      (.rutDuplicado, db,
        escribirDatos (escribirFotos (makedirs fs (carpetaPara nombre rutv))
          (carpetaPara nombre rutv) fotos.length) (carpetaPara nombre rutv)) ∧
    ((registrar_residente db fs (some nombre) (some rutv) fotos none now).2.1.residentes.filter
      (fun x => decide (x.rut = rutv))).length = 1 ∧
    carpetaPara nombre rutv ∈
      (registrar_residente db fs (some nombre) (some rutv) fotos none now).2.2.carpetas ∧
    (∀ n, 1 ≤ n → n ≤ fotos.length → (carpetaPara nombre rutv, fotoFilename n) ∈
      (registrar_residente db fs (some nombre) (some rutv) fotos none now).2.2.archivos) ∧
    (carpetaPara nombre rutv, "datos.json") ∈
      (registrar_residente db fs (some nombre) (some rutv) fotos none now).2.2.archivos := by
  have h1 : esFalsy (some nombre) = false := by
    show nombre.isEmpty = false
    rw [Bool.eq_false_iff]
    intro hcon
    exact hn ((String.isEmpty_iff nombre).mp hcon)
  have h2 : esFalsy (some rutv) = false := by
    show rutv.isEmpty = false
    rw [Bool.eq_false_iff]
    intro hcon
    exact hr ((String.isEmpty_iff rutv).mp hcon)
  have h3 : fotos.isEmpty = false := by simp [List.isEmpty_iff, hf]
  have hne : db.residentes.filter (fun x => decide (x.rut = rutv)) ≠ [] := by
    intro hcon
    rw [hcon] at hdup
    simp at hdup
  obtain ⟨x, hx⟩ := List.exists_mem_of_ne_nil _ hne
  have hany : db.residentes.any (fun x => decide (x.rut = rutv)) = true :=
    List.any_eq_true.mpr ⟨x, (List.mem_filter.mp hx).1, (List.mem_filter.mp hx).2⟩
  have hres : registrar_residente db fs (some nombre) (some rutv) fotos none now =
      (.rutDuplicado, db,
        escribirDatos (escribirFotos (makedirs fs (carpetaPara nombre rutv))
          (carpetaPara nombre rutv) fotos.length) (carpetaPara nombre rutv)) := by
    simp [registrar_residente, h1, h2, h3, hany]
  refine ⟨hres, ?_, ?_, ?_, ?_⟩
  · rw [hres]
    exact hdup
  · rw [hres]
    show carpetaPara nombre rutv ∈
      (escribirDatos (escribirFotos (makedirs fs (carpetaPara nombre rutv))
        (carpetaPara nombre rutv) fotos.length) (carpetaPara nombre rutv)).carpetas
    rw [escribirDatos_carpetas, escribirFotos_carpetas]
    exact makedirs_mem_self fs _
  · intro n hn1 hn2
    rw [hres]
    exact escribirArchivo_mem_mono _ _ (escribirFotos_mem _ _ fotos.length n hn1 hn2)
  · rw [hres]
    exact escribirArchivo_mem_self _ _ _

/-- Witness for C5: duplicate registration of the existing rut `"11"`. -/
theorem registrar_residente_rut_duplicado_witness :
    registrar_residente dbEj fsEj (some "Bob") (some "11") ["p"] none 9 =
      (.rutDuplicado, dbEj,
        escribirDatos (escribirFotos (makedirs fsEj (carpetaPara "Bob" "11"))
          (carpetaPara "Bob" "11") 1) (carpetaPara "Bob" "11")) ∧
    (carpetaPara "Bob" "11", fotoFilename 1) ∈
      (registrar_residente dbEj fsEj (some "Bob") (some "11") ["p"] none 9).2.2.archivos :=
  ⟨(registrar_residente_rut_duplicado dbEj fsEj "Bob" "11" ["p"] 9 (by decide) (by decide)
      (by decide) (by decide)).1,
   (registrar_residente_rut_duplicado dbEj fsEj "Bob" "11" ["p"] 9 (by decide) (by decide)
      (by decide) (by decide)).2.2.2.1 1 (by decide) (by decide)⟩

/-- C7: a successful retake (`registro_id` present and found) returns ok,
creates no folder, and in the repository touches only the primary photo
path (and, for visits, the expiry): row for row, `id`, `nombre`, `rut`,
`carpeta_path` and `fecha_registro` are unchanged, rows with a different
id are completely unchanged, the other table is untouched, and the new
photo is written into the record's existing folder. -/
theorem retomar_preserva_carpeta_y_fecha
    (db : DB) (fs : FS) (nombre rut : Option String) (fotos : List String)
    (fecha_limite : Option String) (rid : Nat) (parse : String → Option Nat) (now : Nat) :
    (∀ r : Resident, esFalsy nombre = false → esFalsy rut = false → fotos ≠ [] →
      db.residentes.find? (fun x => decide (x.id = rid)) = some r →
      (registrar_residente db fs nombre rut fotos (some rid) now).1 = .ok ∧
      (registrar_residente db fs nombre rut fotos (some rid) now).2.2.carpetas = fs.carpetas ∧
      (registrar_residente db fs nombre rut fotos (some rid) now).2.1.visitas = db.visitas ∧
      List.Forall₂ (fun x y : Resident =>
          y.id = x.id ∧ y.nombre = x.nombre ∧ y.rut = x.rut ∧
          y.carpeta_path = x.carpeta_path ∧ y.fecha_registro = x.fecha_registro ∧
          (x.id ≠ rid → y = x))
        db.residentes
        (registrar_residente db fs nombre rut fotos (some rid) now).2.1.residentes ∧
      (r.carpeta_path, fotoFilename 1) ∈
        (registrar_residente db fs nombre rut fotos (some rid) now).2.2.archivos) ∧
    (∀ (r : Visita) (t : Nat), esFalsy nombre = false → esFalsy rut = false → fotos ≠ [] →
      (fecha_limite.getD "").isEmpty = false → parse (fecha_limite.getD "") = some t →
      db.visitas.find? (fun x => decide (x.id = rid)) = some r →
      (registrar_visita db fs nombre rut fotos fecha_limite (some rid) parse now).1 = .ok ∧
      (registrar_visita db fs nombre rut fotos fecha_limite (some rid) parse now).2.2.carpetas =
        fs.carpetas ∧
      (registrar_visita db fs nombre rut fotos fecha_limite (some rid) parse now).2.1.residentes =
        db.residentes ∧
      List.Forall₂ (fun x y : Visita =>
          y.id = x.id ∧ y.nombre = x.nombre ∧ y.rut = x.rut ∧
          y.carpeta_path = x.carpeta_path ∧ y.fecha_registro = x.fecha_registro ∧
          (x.id ≠ rid → y = x))
        db.visitas
        (registrar_visita db fs nombre rut fotos fecha_limite (some rid) parse now).2.1.visitas ∧
      (r.carpeta_path, fotoFilename 1) ∈
        (registrar_visita db fs nombre rut fotos fecha_limite (some rid) parse now).2.2.archivos) := by
  constructor
  · intro r h1 h2 h3 hfind
    have h3b : fotos.isEmpty = false := by simp [List.isEmpty_iff, h3]
    have hlen : 1 ≤ fotos.length := List.length_pos.mpr h3
    have hres : registrar_residente db fs nombre rut fotos (some rid) now =
        (.ok, { db with residentes := db.residentes.map (fun x =>
            if x.id = rid then { x with foto_path := fotoPathEn r.carpeta_path 1 } else x) },
          escribirDatos (escribirFotos fs r.carpeta_path fotos.length) r.carpeta_path) := by
      simp [registrar_residente, h1, h2, h3b, hfind]
    rw [hres]
    refine ⟨rfl, ?_, rfl, ?_, ?_⟩
    · show (escribirDatos (escribirFotos fs r.carpeta_path fotos.length)
        r.carpeta_path).carpetas = fs.carpetas
      rw [escribirDatos_carpetas, escribirFotos_carpetas]
    · rw [List.forall₂_map_right_iff, List.forall₂_same]
      intro x _
      by_cases hid : x.id = rid
      · rw [if_pos hid]
        exact ⟨rfl, rfl, rfl, rfl, rfl, fun hcon => absurd hid hcon⟩
      · rw [if_neg hid]
        exact ⟨rfl, rfl, rfl, rfl, rfl, fun _ => rfl⟩
    · exact escribirArchivo_mem_mono _ _
        (escribirFotos_mem fs r.carpeta_path fotos.length 1 (le_refl 1) hlen)
  · intro r t h1 h2 h3 h4 h5 hfind
    have h3b : fotos.isEmpty = false := by simp [List.isEmpty_iff, h3]
    have hlen : 1 ≤ fotos.length := List.length_pos.mpr h3
    have hres : registrar_visita db fs nombre rut fotos fecha_limite (some rid) parse now =
        (.ok, { db with visitas := db.visitas.map (fun x =>
            if x.id = rid then
              { x with foto_path := fotoPathEn r.carpeta_path 1, fecha_expiracion := t }
            else x) },
          escribirDatos (escribirFotos fs r.carpeta_path fotos.length) r.carpeta_path) := by
      simp [registrar_visita, h1, h2, h3b, h4, h5, hfind]
    rw [hres]
    refine ⟨rfl, ?_, rfl, ?_, ?_⟩
    · show (escribirDatos (escribirFotos fs r.carpeta_path fotos.length)
        r.carpeta_path).carpetas = fs.carpetas
      rw [escribirDatos_carpetas, escribirFotos_carpetas]
    · rw [List.forall₂_map_right_iff, List.forall₂_same]
      intro x _
      by_cases hid : x.id = rid
      · rw [if_pos hid]
        exact ⟨rfl, rfl, rfl, rfl, rfl, fun hcon => absurd hid hcon⟩
      · rw [if_neg hid]
        exact ⟨rfl, rfl, rfl, rfl, rfl, fun _ => rfl⟩
    · exact escribirArchivo_mem_mono _ _
        (escribirFotos_mem fs r.carpeta_path fotos.length 1 (le_refl 1) hlen)

/-- Witness for C7: concrete retakes of `residenteEj` and `visitaEj`. -/
theorem retomar_preserva_carpeta_y_fecha_witness :
    (registrar_residente dbEj fsEj (some "Otra") (some "11") ["p"] (some 1) 9).1 = .ok ∧
    (registrar_residente dbEj fsEj (some "Otra") (some "11") ["p"] (some 1) 9).2.2.carpetas =
      fsEj.carpetas ∧
    (registrar_visita dbEj fsEj (some "Otra") (some "22") ["p"] (some "2025-01-01 00:00")
      (some 1) parseEj 9).1 = .ok :=
  have hR := (retomar_preserva_carpeta_y_fecha dbEj fsEj (some "Otra") (some "11") ["p"]
    (some "2025-01-01 00:00") 1 parseEj 9).1 residenteEj (by decide) (by decide) (by decide)
    (by decide)
  have hV := (retomar_preserva_carpeta_y_fecha dbEj fsEj (some "Otra") (some "22") ["p"]
    (some "2025-01-01 00:00") 1 parseEj 9).2 visitaEj 10 (by decide) (by decide) (by decide)
    (by decide) rfl (by decide)
  ⟨hR.1, hR.2.1, hV.1⟩

theorem carpetaPara_eq_iff (n1 r1 n2 r2 : String) :
    carpetaPara n1 r1 = carpetaPara n2 r2 ↔
      limpiar_nombre_carpeta n1 ++ "_" ++ r1 = limpiar_nombre_carpeta n2 ++ "_" ++ r2 := by
  rw [String.ext_iff, String.ext_iff]
  simp only [carpetaPara, String.data_append, List.append_assoc]
  exact ⟨fun h => List.append_cancel_left (List.append_cancel_left h), fun h => by rw [h]⟩

/-- C8 counterexample: two distinct visit records created through
registration (same name and national id, which `insert_visit` accepts —
no uniqueness constraint) receive the same folder path, so distinctness
of records does not imply distinctness of folders. -/
theorem visitas_carpeta_compartida :
    ((registrar_visita
        (registrar_visita dbVac fsVac (some "Ana") (some "1") ["p"]
          (some "2025-01-01 00:00") none parseEj 0).2.1
        (registrar_visita dbVac fsVac (some "Ana") (some "1") ["p"]
          (some "2025-01-01 00:00") none parseEj 0).2.2
        (some "Ana") (some "1") ["p"] (some "2025-01-01 00:00") none parseEj
        0).2.1.visitas.map (fun v => v.id) = [1, 2]) ∧
    ((registrar_visita
        (registrar_visita dbVac fsVac (some "Ana") (some "1") ["p"]
          (some "2025-01-01 00:00") none parseEj 0).2.1
        (registrar_visita dbVac fsVac (some "Ana") (some "1") ["p"]
          (some "2025-01-01 00:00") none parseEj 0).2.2
        (some "Ana") (some "1") ["p"] (some "2025-01-01 00:00") none parseEj
        0).2.1.visitas.map (fun v => v.carpeta_path) = ["fotos/Ana_1", "fotos/Ana_1"]) :=
  ⟨rfl, rfl⟩

/-- C8 (amended): the folder path of a new registration is
`UPLOAD_FOLDER/{sanitized-name}_{national-id}`; two registrations get
distinct folders exactly when the strings `sanitized-name ++ "_" ++
national-id` differ — appending the national id does not by itself
guarantee uniqueness (two visits with the same name and id share a
folder, since `insert_visit` always succeeds with no uniqueness
constraint, and underscores can make different pairs collide). -/
theorem carpeta_unicidad_amended :
    (∀ n1 r1 n2 r2 : String, carpetaPara n1 r1 = carpetaPara n2 r2 ↔
      limpiar_nombre_carpeta n1 ++ "_" ++ r1 = limpiar_nombre_carpeta n2 ++ "_" ++ r2) ∧
    (∀ (db : DB) (fs : FS) (nombre rut : Option String) (fotos : List String)
        (fecha_limite : Option String) (parse : String → Option Nat) (t now : Nat),
      esFalsy nombre = false → esFalsy rut = false → fotos ≠ [] →
      (fecha_limite.getD "").isEmpty = false → parse (fecha_limite.getD "") = some t →
      (registrar_visita db fs nombre rut fotos fecha_limite none parse now).1 = .ok) := by
  refine ⟨carpetaPara_eq_iff, ?_⟩
  intro db fs nombre rut fotos fecha_limite parse t now h1 h2 h3 h4 h5
  have h3b : fotos.isEmpty = false := by simp [List.isEmpty_iff, h3]
  simp [registrar_visita, h1, h2, h3b, h4, h5]

/-- Witness for the amended C8: a concrete folder collision across two
different national ids, and a concrete always-succeeding visit insert. -/
theorem carpeta_unicidad_amended_witness :
    carpetaPara "a" "b_1" = carpetaPara "a_b" "1" ∧
    (registrar_visita dbEj fsEj (some "Gil") (some "33") ["p"] (some "2025-01-01 00:00")
      none parseEj 0).1 = .ok :=
  ⟨(carpeta_unicidad_amended.1 "a" "b_1" "a_b" "1").mpr (by decide),
   carpeta_unicidad_amended.2 dbEj fsEj (some "Gil") (some "33") ["p"]
     (some "2025-01-01 00:00") parseEj 10 0 (by decide) (by decide) (by decide) (by decide) rfl⟩

/-- C9: a delete-record request whose id does not exist in the table for
the given kind returns the not-found error (and the invalid-kind error
for a kind other than `residente`/`visita`) and mutates neither the
filesystem nor the database. -/
theorem eliminar_registro_no_encontrado (db : DB) (fs : FS) (failSet : List String)
    (tipo : String) (rid : Nat) :
    (tipo ≠ "residente" → tipo ≠ "visita" →
      eliminar_registro db fs failSet tipo rid = (.tipoInvalido, db, fs)) ∧
    (db.residentes.find? (fun x => decide (x.id = rid)) = none →
      eliminar_registro db fs failSet "residente" rid = (.noEncontrado, db, fs)) ∧
    (db.visitas.find? (fun x => decide (x.id = rid)) = none →
      eliminar_registro db fs failSet "visita" rid = (.noEncontrado, db, fs)) := by
  refine ⟨?_, ?_, ?_⟩
  · intro h1 h2
    simp [eliminar_registro, h1, h2]
  · intro h
    simp [eliminar_registro, h]
  · intro h
    simp [eliminar_registro, h]

/-- Witness for C9: an unknown kind and two missing ids on the example
state. -/
theorem eliminar_registro_no_encontrado_witness :
    eliminar_registro dbEj fsEj [] "persona" 1 = (.tipoInvalido, dbEj, fsEj) ∧
    eliminar_registro dbEj fsEj [] "residente" 99 = (.noEncontrado, dbEj, fsEj) ∧
    eliminar_registro dbEj fsEj [] "visita" 99 = (.noEncontrado, dbEj, fsEj) :=
  ⟨(eliminar_registro_no_encontrado dbEj fsEj [] "persona" 1).1 (by decide) (by decide),
   (eliminar_registro_no_encontrado dbEj fsEj [] "residente" 99).2.1 (by decide),
   (eliminar_registro_no_encontrado dbEj fsEj [] "visita" 99).2.2 (by decide)⟩

end Registro
